import Mathlib

/-!
Verification of the answer-routing and multi-source aggregation pipeline of the
`risksoft-ai` repository (`ai-server`), shallowly embedded in Lean 4.

The embedding follows the Python source:
  * `models/schemas.py` — `ModelUsage`, `ChatbotUsageLog` (`add_usage`,
    `create_error_log`), `DetermineAnswerSourceResult.prioritized_sources`;
  * `business/chatbot.py` — `plan_answer_route`, `_update_usage_log`,
    `_format_sql_templates`, `_execute_answer_sources`, `_run_chat_pipeline`,
    `interact_with_agent`, `handle_support_chat`.

Calls to the external language-model service (`OpenRouterService.generate_text`)
and to the two backend collaborators (SQL query agent, semantic search) are
abstracted as explicit parameters: a routing outcome (exception raised /
response that fails structured parsing / successfully parsed response), pure
backend functions `(question, account_id) -> (text, usage_log)`, and a
synthesis outcome (`Except` for the try/except around the polishing call).
Python exceptions are modelled with `Except String`; `float` cost/confidence
fields are modelled with `ℚ`; Python `int` fields with `Int`. `datetime`
fields (`created_at`) are omitted (wall-clock time, irrelevant to all
properties considered here). Conversation context and the site map are only
ever interpolated into prompts for the abstracted language-model calls, so
they carry no information in the embedding and are omitted from signatures.
-/

/-! ### Python string primitives

`str.strip` / `str.lower` / `str.title` as used by the source, implemented on
the underlying character list of a `String`. -/

/-- Remove leading whitespace characters (the `dropWhile` half of Python's
`str.strip`). -/
def stripLeftChars (l : List Char) : List Char := l.dropWhile Char.isWhitespace

/-- Remove leading and trailing whitespace characters: Python's `str.strip`
on a character list. -/
def stripChars (l : List Char) : List Char :=
  ((stripLeftChars l).reverse.dropWhile Char.isWhitespace).reverse

/-- Python's `str.strip` on a `String`. -/
def pyStrip (s : String) : String := String.mk (stripChars s.data)

/-- Python's `str.lower` on a `String` (ASCII lowering; all tag comparisons in
the source involve ASCII tags only). -/
def pyLower (s : String) : String := String.mk (s.data.map Char.toLower)

/-- Helper for `pyTitle`: title-case a character list given whether the
previous character was alphabetic. -/
def pyTitleChars : List Char → Bool → List Char
  | [], _ => []
  | c :: rest, prevAlpha =>
    (if c.isAlpha then (if prevAlpha then c.toLower else c.toUpper) else c)
      :: pyTitleChars rest c.isAlpha

/-- Python's `str.title` (used only as the fallback label for a source name
outside the label map, which is unreachable for the closed tag set). -/
def pyTitle (s : String) : String := String.mk (pyTitleChars s.data false)

/-- Python's `sep.join(parts)` for strings. -/
def joinSep (sep : String) : List String → String
  | [] => ""
  | [s] => s
  | s :: rest => s ++ sep ++ joinSep sep rest

/-! ### Enumerations (`models/enum.py`) -/

/-- `LogType` from `models/enum.py`. -/
inductive LogType where
  | TOKEN_USAGE | ERROR | WARNING | INFO | SECURITY | PERFORMANCE
deriving DecidableEq, Repr

/-- `Status` from `models/enum.py`. -/
inductive Status where
  | SUCCESS | ERROR | WARNING
deriving DecidableEq, Repr

/-- `ChatMode` from `models/enum.py`. -/
inductive ChatMode where
  | STANDARD | SUPPORT
deriving DecidableEq, Repr

/-! ### Usage telemetry (`models/schemas.py`) -/

/-- `ModelUsage`: telemetry of one model call. -/
structure ModelUsage where
  model : String
  prompt_tokens : Int := 0
  completion_tokens : Int := 0
  total_tokens : Int := 0
  cost : ℚ := 0
  response_time_ms : Int := 0
deriving DecidableEq, Repr

/-- `ChatbotUsageLog`: aggregate telemetry for a pipeline run. The
`created_at : datetime` field of the source is omitted (wall-clock). -/
structure ChatbotUsageLog where
  conversation_id : Option Int := none
  message_id : Option Int := none
  model_usages : List ModelUsage := []
  total_tokens : Int := 0
  total_cost : ℚ := 0
  total_response_time_ms : Int := 0
  log_type : LogType := LogType.INFO
  status : Status := Status.SUCCESS
  message : Option String := none
deriving DecidableEq, Repr

/-- A freshly constructed `ChatbotUsageLog()` (all pydantic defaults). -/
def ChatbotUsageLog.empty : ChatbotUsageLog := {}

/-- `ChatbotUsageLog.add_usage`: append one `ModelUsage` entry and bump the
running totals. -/
def ChatbotUsageLog.addUsage (log : ChatbotUsageLog) (model : String)
    (prompt_tokens completion_tokens total_tokens : Int) (cost : ℚ)
    (response_time_ms : Int) : ChatbotUsageLog :=
  { log with
    model_usages := log.model_usages ++
      [{ model := model, prompt_tokens := prompt_tokens,
         completion_tokens := completion_tokens, total_tokens := total_tokens,
         cost := cost, response_time_ms := response_time_ms }],
    total_tokens := log.total_tokens + total_tokens,
    total_cost := log.total_cost + cost,
    total_response_time_ms := log.total_response_time_ms + response_time_ms }

/-- `ChatbotUsageLog.create_error_log`: an error-tagged log with no usage
entries. -/
def ChatbotUsageLog.createErrorLog (msg : String) : ChatbotUsageLog :=
  { log_type := LogType.ERROR, status := Status.ERROR, message := some msg }

/-- The loop body of `Chatbot._update_usage_log`: re-add one source entry to
the target via `add_usage` (every field is copied). -/
def usageMergeStep (acc : ChatbotUsageLog) (u : ModelUsage) : ChatbotUsageLog :=
  acc.addUsage u.model u.prompt_tokens u.completion_tokens u.total_tokens
    u.cost u.response_time_ms

/-- `Chatbot._update_usage_log`: copy every usage entry of `source` into
`target` via `add_usage`; no-op when `source` is `None`. (The Python guard
`if not target or not source` only fires for `None` arguments: pydantic
models are always truthy.) -/
def updateUsageLog (target : ChatbotUsageLog) (source : Option ChatbotUsageLog) :
    ChatbotUsageLog :=
  match source with
  | none => target
  | some src => src.model_usages.foldl usageMergeStep target

/-- The totals invariant of `ChatbotUsageLog`: each running total equals the
sum of the corresponding field over `model_usages`. -/
def UsageInv (log : ChatbotUsageLog) : Prop :=
  log.total_tokens = (log.model_usages.map ModelUsage.total_tokens).sum ∧
  log.total_cost = (log.model_usages.map ModelUsage.cost).sum ∧
  log.total_response_time_ms =
    (log.model_usages.map ModelUsage.response_time_ms).sum

instance (log : ChatbotUsageLog) : Decidable (UsageInv log) := by
  unfold UsageInv; infer_instance

/-! ### Routing result schema (`models/schemas.py`) -/

/-- `DetermineAnswerSourceResult`: the validated routing payload. Pydantic
enforces `1 ≤ len(sources) ≤ 3` and membership of each entry in the closed tag
set, but not uniqueness; list validity is stated as hypotheses where a claim
needs it. -/
structure DetermineAnswerSourceResult where
  sources : List String := ["casual"]
  improved_question : String
  casual_response : Option String := none
deriving DecidableEq, Repr

/-- `DetermineAnswerSourceResult.prioritized_sources`: drop `casual` when the
list has more than one entry and `casual` is among them; fall back to
`["casual"]` when nothing remains. -/
def DetermineAnswerSourceResult.prioritizedSources
    (r : DetermineAnswerSourceResult) : List String :=
  let prioritized := if r.sources.isEmpty then ["casual"] else r.sources
  if 1 < prioritized.length ∧ "casual" ∈ prioritized then
    let filtered := prioritized.filter (fun s => s ≠ "casual")
    if filtered.isEmpty then ["casual"] else filtered
  else prioritized

/-! ### Router (`Chatbot.plan_answer_route`) -/

/-- The fixed Turkish apology used as immediate answer when no casual reply
was provided. -/
def apologyText : String :=
  "Şu anda isteğinizi yerine getiremedim. Lütfen tekrar dener misiniz?"

/-- Outcome of the abstracted routing language-model interaction inside
`plan_answer_route`'s `try` block:
  * `failure msg` — the block raised an unexpected exception;
  * `unparsed usage` — `generate_text` returned (accumulating `usage`), but
    `DetermineAnswerSourceResult.model_validate_json` raised a
    `ValidationError`/`ValueError` (caught inside, defaults kept);
  * `parsed usage r` — the structured response validated to `r`. -/
inductive RoutingOutcome where
  | failure (msg : String)
  | unparsed (usage : ChatbotUsageLog)
  | parsed (usage : ChatbotUsageLog) (r : DetermineAnswerSourceResult)

/-- Tail of `plan_answer_route` (from the `requires_structured` check on):
when no structured source survives, the original question is reused and the
immediate answer is the casual reply or the fixed apology. -/
def finishRoute (question : String) (sources : List String)
    (improved : String) (casual_answer : Option String)
    (usage : ChatbotUsageLog) :
    List String × String × ChatbotUsageLog × Option String :=
  let requires_structured :=
    sources.any (fun src => src == "database" || src == "document")
  if requires_structured then (sources, improved, usage, none)
  else (sources, question, usage, some (casual_answer.getD apologyText))

/-- `Chatbot.plan_answer_route` with the language-model call abstracted as a
`RoutingOutcome`. Returns `(sources, improved_question, usage_log,
immediate_response)`. -/
def planAnswerRoute (question : String) (mode : ChatMode)
    (outcome : RoutingOutcome) :
    List String × String × ChatbotUsageLog × Option String :=
  match outcome with
  | .failure msg =>
    -- `except Exception`: default to document search
    (["document"], question, ChatbotUsageLog.createErrorLog msg, none)
  | .unparsed usage =>
    -- parse failure: `sources = ["casual"]`, question and casual answer kept
    finishRoute question ["casual"] question none usage
  | .parsed usage r =>
    let ns0 := r.prioritizedSources
    let ns := if mode = ChatMode.SUPPORT ∧ "casual" ∈ ns0 then ["casual"] else ns0
    let sources := if ns.isEmpty then ["casual"] else ns
    let cleaned := pyStrip r.improved_question
    let improved := if cleaned ≠ "" then cleaned else question
    let text_response := pyStrip (r.casual_response.getD "")
    let casual_answer := if text_response ≠ "" then some text_response else none
    finishRoute question sources improved casual_answer usage

/-! ### Source Executor (`Chatbot._execute_answer_sources`) -/

/-- The closed tag set accepted by the executor's normalization loop. -/
def validTags : List String := ["database", "document", "casual"]

/-- One iteration of the executor's normalize/dedup loop: normalize the tag
(`(source or "casual").strip().lower()`), skip tags outside the closed set,
skip already-seen tags (the accumulated list doubles as the `seen` set). -/
def dedupStep (acc : List String) (source : String) : List String :=
  let normalized := pyLower (pyStrip (if source = "" then "casual" else source))
  if normalized ∈ validTags then
    if normalized ∈ acc then acc else acc ++ [normalized]
  else acc

/-- The executor's normalize/dedup pass over `answer_sources or ["casual"]`. -/
def dedupSources (answer_sources : List String) : List String :=
  (if answer_sources.isEmpty then ["casual"] else answer_sources).foldl dedupStep []

/-- Is a tag a heavy source (`database` or `document`)? -/
def isHeavy (s : String) : Bool := s == "database" || s == "document"

/-- The executor's heavy-source cap: keep the first heavy tag, drop every
later heavy tag, keep all non-heavy tags (`heavy_seen` is the accumulator
flag of the Python loop). -/
def capHeavy : Bool → List String → List String
  | _, [] => []
  | heavy_seen, s :: rest =>
    if isHeavy s then
      if heavy_seen then capHeavy true rest else s :: capHeavy true rest
    else s :: capHeavy heavy_seen rest

/-- The full normalization/dedup/cap step of `_execute_answer_sources`
(lines 247–269): the active source list before the account check. -/
def resolveSources (answer_sources : List String) : List String :=
  capHeavy false (dedupSources answer_sources)

/-- Python truthiness of the `account_id` argument (`Optional[int]`):
`None` and `0` are falsy. -/
def accountTruthy : Option Int → Bool
  | none => false
  | some n => n != 0

/-- One SQL template triple `(input_text, query, description)` as stored on
`sql_query_agent_service.chatbot_sql_templates`. -/
structure SqlTemplate where
  input_text : String
  query : String
  description : Option String := none
deriving DecidableEq, Repr

/-- `Chatbot._format_sql_templates`: the rendered text block and the
serialized template list. -/
def formatSqlTemplates (templates : List SqlTemplate) : String × List SqlTemplate :=
  if templates.isEmpty then ("", [])
  else
    (joinSep "\n\n" (templates.map (fun t =>
      "Input: " ++ t.input_text ++ "\nQuery: " ++ t.query ++ "\nDescription: " ++
        (match t.description with
         | some d => if d = "" then "—" else d
         | none => "—"))),
     templates)

/-- The executor's `extras` dictionary: its two keys are present exactly when
`database` is among the active sources. -/
structure ExecExtras where
  sql_templates : Option (List SqlTemplate) := none
  sql_templates_text : Option String := none
deriving DecidableEq, Repr

/-- The executor's section label map (`label_map.get(name, name.title())`). -/
def labelMap (name : String) : String :=
  if name = "database" then "Database Result"
  else if name = "document" then "Document Result"
  else pyTitle name

/-- One labeled section: `f"{label}:\n{text}"`. -/
def sectionLine (name text : String) : String := labelMap name ++ ":\n" ++ text

/-- The executor's merge step (lines 307–328) as a function of the
`(source name, returned content)` pairs in call (= priority) order: contents
are stripped on collection (`section_texts[name] = (content or "").strip()`);
a single active source yields its stripped text verbatim, otherwise the
labeled sections are joined with a blank line and the join is stripped. -/
def mergeSections (results : List (String × String)) : String :=
  if results.length = 1 then pyStrip (results.headD ("", "")).2
  else
    pyStrip (joinSep "\n\n"
      (results.map (fun p => sectionLine p.1 (pyStrip p.2))))

/-- `Chatbot._execute_answer_sources` with the backend collaborators and the
synthesis call abstracted: `db`/`doc` are the pure success behaviours of
`advanced_database_chat`/`advanced_document_chat`, and `synth` is the outcome
of the polishing `generate_text` call (`Except.error` = the call raised).
Returns `(processed_result, result, combined_usage, active_sources, extras)`
or the raised `ChatbotException` message. -/
def executeAnswerSources (answer_sources : List String) (question : String)
    (account_id : Option Int)
    (db doc : String → Int → String × ChatbotUsageLog)
    (templates : List SqlTemplate)
    (synth : Except String (String × ChatbotUsageLog)) :
    Except String (String × String × ChatbotUsageLog × List String × ExecExtras) :=
  let deduped_sources := resolveSources answer_sources
  if accountTruthy account_id = false then
    .error "Structured sources require a valid account_id."
  else
    let deduped_sources := if deduped_sources.isEmpty then ["casual"] else deduped_sources
    let aid := account_id.getD 0
    let async_calls : List (String × (String × ChatbotUsageLog)) :=
      (if "database" ∈ deduped_sources then [("database", db question aid)] else []) ++
      (if "document" ∈ deduped_sources then [("document", doc question aid)] else [])
    let combined_usage := async_calls.foldl
      (fun acc c => updateUsageLog acc (some c.2.2)) ChatbotUsageLog.empty
    let active_sources := async_calls.map Prod.fst
    let result := mergeSections (async_calls.map (fun c => (c.1, c.2.1)))
    let fmt := formatSqlTemplates templates
    let result :=
      if "database" ∈ active_sources ∧ fmt.1 ≠ "" then
        pyStrip (result ++ "\n\n" ++ pyStrip ("Kullanılabilir SQL Şablonları:\n" ++ fmt.1))
      else result
    let extras : ExecExtras :=
      if "database" ∈ active_sources then ⟨some fmt.2, some fmt.1⟩ else ⟨none, none⟩
    match synth with
    | .ok (content, processing_usage) =>
      .ok (pyStrip content, result,
        updateUsageLog combined_usage (some processing_usage), active_sources, extras)
    | .error e =>
      -- `except`: keep the raw result and merge an entry-less error log
      .ok (result, result,
        updateUsageLog combined_usage (some (ChatbotUsageLog.createErrorLog e)),
        active_sources, extras)

/-! ### Pipeline Orchestrator (`Chatbot._run_chat_pipeline`,
`Chatbot.interact_with_agent`, `Chatbot.handle_support_chat`) -/

/-- The dictionary returned by `_run_chat_pipeline`. -/
structure PipelineOutput where
  answer : String
  raw_result : String
  usage_log : ChatbotUsageLog
  sources : List String
  improved_question : String
  extras : ExecExtras
deriving DecidableEq, Repr

/-- `Chatbot._run_chat_pipeline`: route, then either return the immediate
answer or execute the sources; on an escaping exception either re-raise
(`raise_on_error`) or return the degraded fallback result. -/
def runChatPipeline (message : String) (account_id : Option Int)
    (mode : ChatMode) (raise_on_error : Bool) (routing : RoutingOutcome)
    (db doc : String → Int → String × ChatbotUsageLog)
    (templates : List SqlTemplate)
    (synth : Except String (String × ChatbotUsageLog)) :
    Except String PipelineOutput :=
  let planned := planAnswerRoute message mode routing
  let answer_sources := planned.1
  let refined_question := planned.2.1
  let source_usage := planned.2.2.1
  let immediate_response := planned.2.2.2
  let aggregated_usage := updateUsageLog ChatbotUsageLog.empty (some source_usage)
  match immediate_response with
  | some imm =>
    .ok ⟨imm, imm, aggregated_usage,
      if answer_sources.isEmpty then ["casual"] else answer_sources,
      message, ⟨none, none⟩⟩
  | none =>
    match executeAnswerSources answer_sources refined_question account_id
        db doc templates synth with
    | .ok (processed_result, raw_result, service_usage, active_sources, extras) =>
      .ok ⟨processed_result, raw_result,
        updateUsageLog aggregated_usage (some service_usage),
        active_sources, refined_question, extras⟩
    | .error exc =>
      if raise_on_error then .error exc
      else
        .ok ⟨"", "", ChatbotUsageLog.createErrorLog exc, ["casual"], message,
          ⟨none, none⟩⟩

/-- The dictionary returned by `interact_with_agent`; keys absent on the
error branch are modelled as `none`. -/
structure AgentResult where
  success : Bool
  response : String
  conversation_type : String
  usage_logs : ChatbotUsageLog
  improved_question : Option String := none
  mode : Option ChatMode := none
deriving DecidableEq, Repr

/-- `Chatbot.interact_with_agent`: run the pipeline with
`raise_on_error = (mode != SUPPORT)` and shape the payload; any escaping
exception becomes the fixed error payload. -/
def interactWithAgent (content : String) (account_id : Option Int)
    (mode : ChatMode) (routing : RoutingOutcome)
    (db doc : String → Int → String × ChatbotUsageLog)
    (templates : List SqlTemplate)
    (synth : Except String (String × ChatbotUsageLog)) : AgentResult :=
  match runChatPipeline content account_id mode (mode != ChatMode.SUPPORT)
      routing db doc templates synth with
  | .ok pipeline =>
    ⟨true, pipeline.answer, joinSep ", " pipeline.sources, pipeline.usage_log,
      some pipeline.improved_question, some mode⟩
  | .error e =>
    ⟨false, "I encountered an error processing your request. Please try again.",
      "error", ChatbotUsageLog.createErrorLog e, none, none⟩

/-- `SupportChatResponse` from `models/respons_schemas.py` (confidence is a
Python float, modelled as `ℚ`). -/
structure SupportChatResponse where
  response : String
  confidence : ℚ
  needsHumanSupport : Bool
  intent : String
  suggestions : List String := []
deriving DecidableEq, Repr

/-- `Chatbot._build_support_error_response`: the canned escalation
response. -/
def buildSupportErrorResponse : SupportChatResponse :=
  ⟨"Üzgünüm, bir hata oluştu. Lütfen canlı destek talep edin.", 0, true,
    "error", ["Canlı destek talep et"]⟩

/-- `Chatbot.handle_support_chat`: wrap `interact_with_agent` in support mode;
an empty (stripped) response escalates, otherwise the answer is wrapped with
fixed confidence `0.7` and no escalation. -/
def handleSupportChat (message : String) (account_id : Option Int)
    (routing : RoutingOutcome)
    (db doc : String → Int → String × ChatbotUsageLog)
    (templates : List SqlTemplate)
    (synth : Except String (String × ChatbotUsageLog)) : SupportChatResponse :=
  let agent_response :=
    interactWithAgent message account_id ChatMode.SUPPORT routing db doc
      templates synth
  let base_response := pyStrip agent_response.response
  if base_response = "" then buildSupportErrorResponse
  else ⟨base_response, 7 / 10, false, "general", []⟩

/-! ### Concrete collaborator stubs for witnesses and counterexamples -/

/-- A trivial backend collaborator used to instantiate universally quantified
backend parameters in witnesses. -/
def stubBackend : String → Int → String × ChatbotUsageLog :=
  fun _ _ => ("", ChatbotUsageLog.empty)

/-- A trivial successful synthesis outcome for witnesses. -/
def stubSynth : Except String (String × ChatbotUsageLog) :=
  .ok ("ok", ChatbotUsageLog.empty)

/-! ### Lemmas about the heavy-source cap -/

/-- Once a heavy source has been seen, the cap keeps no further heavy tag. -/
theorem capHeavy_true_filter_heavy (l : List String) :
    (capHeavy true l).filter isHeavy = [] := by
  induction l with
  | nil => rfl
  | cons s rest ih =>
    cases h : isHeavy s with
    | true => simp [capHeavy, h, ih]
    | false => simpa [capHeavy, h] using ih

/-- Before any heavy source has been seen, the cap keeps exactly the first
heavy tag of the list. -/
theorem capHeavy_false_filter_heavy (l : List String) :
    (capHeavy false l).filter isHeavy = (l.filter isHeavy).take 1 := by
  induction l with
  | nil => rfl
  | cons s rest ih =>
    cases h : isHeavy s with
    | true => simp [capHeavy, h, capHeavy_true_filter_heavy]
    | false => simpa [capHeavy, h] using ih

/-- The cap never touches non-heavy tags. -/
theorem capHeavy_filter_nonheavy (b : Bool) (l : List String) :
    (capHeavy b l).filter (fun s => !isHeavy s) =
      l.filter (fun s => !isHeavy s) := by
  induction l generalizing b with
  | nil => rfl
  | cons s rest ih =>
    cases h : isHeavy s with
    | true => cases b <;> simp [capHeavy, h, ih]
    | false => simp [capHeavy, h, ih]

/-- C1: for every input source list, the normalization/dedup/cap step of
`_execute_answer_sources` yields an active list with at most one heavy tag
(`database`/`document`); its heavy part is exactly the first heavy tag of the
deduplicated priority order (any later heavy tag is dropped); and its
non-heavy part — in particular any `casual` tag — is exactly that of the
deduplicated list, so `casual` alongside a heavy tag is preserved. -/
theorem resolveSources_heavy_cap (l : List String) :
    ((resolveSources l).filter isHeavy).length ≤ 1 ∧
    (resolveSources l).filter isHeavy = ((dedupSources l).filter isHeavy).take 1 ∧
    (resolveSources l).filter (fun s => !isHeavy s) =
      (dedupSources l).filter (fun s => !isHeavy s) ∧
    ("casual" ∈ resolveSources l ↔ "casual" ∈ dedupSources l) := by
  refine ⟨?_, capHeavy_false_filter_heavy _, capHeavy_filter_nonheavy _ _, ?_⟩
  · rw [resolveSources, capHeavy_false_filter_heavy]
    exact List.length_take_le _ _
  · have h := capHeavy_filter_nonheavy false (dedupSources l)
    constructor
    · intro hm
      have : "casual" ∈ (capHeavy false (dedupSources l)).filter (fun s => !isHeavy s) :=
        List.mem_filter.mpr ⟨hm, by decide⟩
      rw [h] at this
      exact (List.mem_filter.mp this).1
    · intro hm
      have : "casual" ∈ (dedupSources l).filter (fun s => !isHeavy s) :=
        List.mem_filter.mpr ⟨hm, by decide⟩
      rw [← h] at this
      exact (List.mem_filter.mp this).1

/-! ### Lemmas about `prioritized_sources` -/

/-- A duplicated-casual decision: accepted by the pydantic field validation
(`1 ≤ len ≤ 3`, entries drawn from the closed tag set — uniqueness is only
requested from the model, not validated). -/
def dupCasualDecision : DetermineAnswerSourceResult :=
  ⟨["casual", "casual"], "q", none⟩

/-- C2 counterexample: a parsed decision with more than one entry including
`casual` whose filtered decision still contains `casual` (the all-casual
fallback), even though `casual` is not the decision's sole entry. -/
theorem prioritized_keeps_casual_on_duplicates :
    1 < dupCasualDecision.sources.length ∧
    "casual" ∈ dupCasualDecision.sources ∧
    (∀ s ∈ dupCasualDecision.sources, s ∈ validTags) ∧
    dupCasualDecision.sources.length ≤ 3 ∧
    dupCasualDecision.sources ≠ ["casual"] ∧
    dupCasualDecision.prioritizedSources = ["casual"] ∧
    "casual" ∈ dupCasualDecision.prioritizedSources := by
  decide

/-- Core behaviour of the `casual` filter of `prioritized_sources` on lists
with more than one entry including `casual`. -/
theorem prioritized_filter_core (r : DetermineAnswerSourceResult)
    (h1 : 1 < r.sources.length) (h2 : "casual" ∈ r.sources) :
    ("casual" ∈ r.prioritizedSources ↔ ∀ s ∈ r.sources, s = "casual") ∧
    ((∀ s ∈ r.sources, s = "casual") → r.prioritizedSources = ["casual"]) ∧
    ((∃ s ∈ r.sources, s ≠ "casual") →
      r.prioritizedSources = r.sources.filter (fun s => s ≠ "casual")) := by
  have hne : r.sources.isEmpty = false := by
    cases hs : r.sources with
    | nil => rw [hs] at h1; simp at h1
    | cons a t => rfl
  have hcasfilt : "casual" ∉ r.sources.filter (fun s => s ≠ "casual") := by
    intro hmem
    have h := (List.mem_filter.mp hmem).2
    simp at h
  unfold DetermineAnswerSourceResult.prioritizedSources
  simp only [hne, Bool.false_eq_true, if_false]
  rw [if_pos ⟨h1, h2⟩]
  cases hf : (r.sources.filter (fun s => s ≠ "casual")).isEmpty with
  | true =>
    have hfe : r.sources.filter (fun s => s ≠ "casual") = [] :=
      List.isEmpty_iff.mp hf
    have hall : ∀ s ∈ r.sources, s = "casual" := by
      intro s hs
      by_contra hne2
      have hmem : s ∈ r.sources.filter (fun s => s ≠ "casual") :=
        List.mem_filter.mpr ⟨hs, by simpa using hne2⟩
      rw [hfe] at hmem
      exact absurd hmem (List.not_mem_nil s)
    rw [if_pos rfl]
    refine ⟨⟨fun _ => hall, fun _ => by simp⟩, fun _ => rfl, fun hex => ?_⟩
    obtain ⟨s, hs, hne2⟩ := hex
    exact absurd (hall s hs) hne2
  | false =>
    have hfe : r.sources.filter (fun s => s ≠ "casual") ≠ [] := by
      intro hnil; rw [hnil] at hf; simp at hf
    obtain ⟨s0, hs0⟩ :=
      List.exists_mem_of_ne_nil (r.sources.filter (fun s => s ≠ "casual")) hfe
    have hs0src : s0 ∈ r.sources := (List.mem_filter.mp hs0).1
    have hs0ne : s0 ≠ "casual" := by
      have h := (List.mem_filter.mp hs0).2
      simpa using h
    rw [if_neg (by simp)]
    exact ⟨⟨fun hmem => absurd hmem hcasfilt,
        fun hall => absurd (hall s0 hs0src) hs0ne⟩,
      fun hall => absurd (hall s0 hs0src) hs0ne, fun _ => rfl⟩

/-- C2 as amended: for a parsed decision with more than one entry including
`casual`, the filtered decision contains `casual` iff every entry is
`casual` (in which case it collapses to `["casual"]`); otherwise `casual` is
dropped and the non-casual entries survive in order. -/
theorem prioritized_drops_casual (r : DetermineAnswerSourceResult)
    (h1 : 1 < r.sources.length) (h2 : "casual" ∈ r.sources) :
    ("casual" ∈ r.prioritizedSources ↔ ∀ s ∈ r.sources, s = "casual") ∧
    ((∀ s ∈ r.sources, s = "casual") → r.prioritizedSources = ["casual"]) ∧
    ((∃ s ∈ r.sources, s ≠ "casual") →
      r.prioritizedSources = r.sources.filter (fun s => s ≠ "casual")) :=
  prioritized_filter_core r h1 h2

/-- Witness for the amended C2 at a concrete mixed decision. -/
theorem prioritized_drops_casual_witness :
    ("casual" ∈ (⟨["casual", "database"], "q", none⟩ :
        DetermineAnswerSourceResult).prioritizedSources ↔
      ∀ s ∈ (⟨["casual", "database"], "q", none⟩ :
        DetermineAnswerSourceResult).sources, s = "casual") ∧
    ((∀ s ∈ (⟨["casual", "database"], "q", none⟩ :
        DetermineAnswerSourceResult).sources, s = "casual") →
      (⟨["casual", "database"], "q", none⟩ :
        DetermineAnswerSourceResult).prioritizedSources = ["casual"]) ∧
    ((∃ s ∈ (⟨["casual", "database"], "q", none⟩ :
        DetermineAnswerSourceResult).sources, s ≠ "casual") →
      (⟨["casual", "database"], "q", none⟩ :
        DetermineAnswerSourceResult).prioritizedSources =
        (⟨["casual", "database"], "q", none⟩ :
          DetermineAnswerSourceResult).sources.filter (fun s => s ≠ "casual")) :=
  prioritized_drops_casual ⟨["casual", "database"], "q", none⟩
    (by decide) (by decide)

/-- `prioritized_sources` returns a `casual`-containing list only when that
list is exactly `["casual"]`: the support-mode collapse branch of
`plan_answer_route` (which tests `"casual" in normalized_sources` after this
filtering) can therefore never change the decision — it is dead code. -/
theorem prioritized_casual_only (r : DetermineAnswerSourceResult)
    (h : "casual" ∈ r.prioritizedSources) :
    r.prioritizedSources = ["casual"] := by
  cases hs : r.sources with
  | nil =>
    unfold DetermineAnswerSourceResult.prioritizedSources
    rw [hs]
    rfl
  | cons a t =>
    cases t with
    | nil =>
      unfold DetermineAnswerSourceResult.prioritizedSources at h ⊢
      rw [hs] at h ⊢
      simp at h ⊢
      try simp [h]
    | cons b t2 =>
      by_cases hmem : "casual" ∈ r.sources
      · have hlen : 1 < r.sources.length := by
          rw [hs]
          simp
        have hmain := prioritized_filter_core r hlen hmem
        exact hmain.2.1 (hmain.1.mp h)
      · exfalso
        unfold DetermineAnswerSourceResult.prioritizedSources at h
        have hne : r.sources.isEmpty = false := by rw [hs]; rfl
        simp only [hne, Bool.false_eq_true, if_false] at h
        rw [if_neg (fun hc => hmem hc.2)] at h
        exact hmem h

/-- The parsed support-mode decision used for the C3 failing input. -/
def supportMixedDecision : DetermineAnswerSourceResult :=
  ⟨["casual", "document"], "What is the leave policy?", none⟩

/-- C3 failing input: in support mode, a successfully parsed response whose
chosen source list is `["casual", "document"]` yields the decision
`["document"]`, not `["casual"]` — because the collapse checks `casual`
membership only after `prioritized_sources` has already dropped it. -/
theorem support_mode_casual_not_collapsed :
    (planAnswerRoute "What is the leave policy?" ChatMode.SUPPORT
        (.parsed ChatbotUsageLog.empty supportMixedDecision)).1 = ["document"] ∧
    "casual" ∈ supportMixedDecision.sources ∧
    (["document"] : List String) ≠ ["casual"] := by
  decide

/-- C5: whenever the routing step raises an unexpected exception,
`plan_answer_route` swallows it and returns
`(["document"], original question, error log, no immediate answer)`. -/
theorem route_failure_defaults_to_document (q : String) (mode : ChatMode)
    (msg : String) :
    planAnswerRoute q mode (.failure msg) =
      (["document"], q, ChatbotUsageLog.createErrorLog msg, none) := rfl

/-- C4: if a structured source survives the dedup/cap filtering and the
account id is absent or zero, `_execute_answer_sources` raises the
missing-account `ChatbotException`; the result is this fixed error for every
backend collaborator, so no backend call is issued. -/
theorem exec_structured_missing_account (l : List String) (q : String)
    (aid : Option Int) (db doc : String → Int → String × ChatbotUsageLog)
    (tm : List SqlTemplate) (sy : Except String (String × ChatbotUsageLog))
    (hheavy : (resolveSources l).any isHeavy = true)
    (hacct : accountTruthy aid = false) :
    executeAnswerSources l q aid db doc tm sy =
      .error "Structured sources require a valid account_id." := by
  simp [executeAnswerSources, hacct]

/-- Witness for C4 at `sources = ["database"]`, `account_id = 0`. -/
theorem exec_structured_missing_account_witness :
    executeAnswerSources ["database"] "q" (some 0) stubBackend stubBackend []
        stubSynth =
      .error "Structured sources require a valid account_id." :=
  exec_structured_missing_account ["database"] "q" (some 0) stubBackend
    stubBackend [] stubSynth (by decide) (by decide)

/-- C10: the account check of `_execute_answer_sources` is unconditional and
precedes the default-to-`["casual"]` step: with an absent or zero account id
the missing-account `ChatbotException` is raised for every source list —
casual-only, empty, or unknown tags included — before any backend call. -/
theorem exec_account_check_unconditional (l : List String) (q : String)
    (aid : Option Int) (db doc : String → Int → String × ChatbotUsageLog)
    (tm : List SqlTemplate) (sy : Except String (String × ChatbotUsageLog))
    (hacct : accountTruthy aid = false) :
    executeAnswerSources l q aid db doc tm sy =
      .error "Structured sources require a valid account_id." := by
  simp [executeAnswerSources, hacct]

/-- Witness for C10 at the casual-only source list with a missing account. -/
theorem exec_account_check_unconditional_witness :
    executeAnswerSources ["casual"] "q" none stubBackend stubBackend []
        stubSynth =
      .error "Structured sources require a valid account_id." :=
  exec_account_check_unconditional ["casual"] "q" none stubBackend stubBackend
    [] stubSynth (by decide)

/-! ### Lemmas about the Usage Aggregator -/

/-- Closed form of the `_update_usage_log` fold: entries are appended in
order and each total increases by the sum of the merged entries. -/
theorem foldl_usageMergeStep (l : List ModelUsage) (t : ChatbotUsageLog) :
    l.foldl usageMergeStep t =
      { t with
        model_usages := t.model_usages ++ l,
        total_tokens := t.total_tokens + (l.map ModelUsage.total_tokens).sum,
        total_cost := t.total_cost + (l.map ModelUsage.cost).sum,
        total_response_time_ms :=
          t.total_response_time_ms + (l.map ModelUsage.response_time_ms).sum } := by
  induction l generalizing t with
  | nil => simp
  | cons u rest ih =>
    rw [List.foldl_cons, ih]
    simp [usageMergeStep, ChatbotUsageLog.addUsage, add_assoc]

/-- C6: the totals invariant (`total_tokens`/`total_cost`/
`total_response_time_ms` equal the sums over `model_usages`) holds for a
fresh `ChatbotUsageLog`, is preserved by `add_usage`, holds for
`create_error_log` (which has no usage entries), and is preserved by any
single `_update_usage_log` merge and by any sequence of merges; every merge
appends the source's entries to the target's, preserving order. -/
theorem usage_totals_invariant :
    UsageInv ChatbotUsageLog.empty ∧
    (∀ (log : ChatbotUsageLog) (model : String) (pt ct tt : Int) (c : ℚ)
        (rt : Int), UsageInv log → UsageInv (log.addUsage model pt ct tt c rt)) ∧
    (∀ msg, UsageInv (ChatbotUsageLog.createErrorLog msg) ∧
      (ChatbotUsageLog.createErrorLog msg).model_usages = []) ∧
    (∀ t s, UsageInv t →
      UsageInv (updateUsageLog t (some s)) ∧
      (updateUsageLog t (some s)).model_usages =
        t.model_usages ++ s.model_usages) ∧
    (∀ (t : ChatbotUsageLog) (srcs : List ChatbotUsageLog), UsageInv t →
      UsageInv (srcs.foldl (fun acc s => updateUsageLog acc (some s)) t) ∧
      (srcs.foldl (fun acc s => updateUsageLog acc (some s)) t).model_usages =
        t.model_usages ++ (srcs.map ChatbotUsageLog.model_usages).flatten) := by
  have hupd : ∀ t s, UsageInv t →
      UsageInv (updateUsageLog t (some s)) ∧
      (updateUsageLog t (some s)).model_usages =
        t.model_usages ++ s.model_usages := by
    intro t s ht
    obtain ⟨h1, h2, h3⟩ := ht
    have hdef : updateUsageLog t (some s) =
        s.model_usages.foldl usageMergeStep t := rfl
    rw [hdef, foldl_usageMergeStep]
    exact ⟨⟨by simp [h1], by simp [h2], by simp [h3]⟩, rfl⟩
  refine ⟨⟨rfl, rfl, rfl⟩, ?_, fun msg => ⟨⟨rfl, rfl, rfl⟩, rfl⟩, hupd, ?_⟩
  · intro log model pt ct tt c rt h
    obtain ⟨h1, h2, h3⟩ := h
    exact ⟨by simp [ChatbotUsageLog.addUsage, h1],
      by simp [ChatbotUsageLog.addUsage, h2],
      by simp [ChatbotUsageLog.addUsage, h3]⟩
  · intro t srcs
    induction srcs generalizing t with
    | nil => intro ht; exact ⟨ht, by simp⟩
    | cons s rest ih =>
      intro ht
      have hstep := hupd t s ht
      have hrest := ih (updateUsageLog t (some s)) hstep.1
      refine ⟨hrest.1, ?_⟩
      simp only [List.foldl_cons]
      rw [hrest.2, hstep.2]
      simp

/-- Witness for C6: the invariant evaluated through a concrete
`add_usage` / `create_error_log` / merge chain. -/
theorem usage_totals_invariant_witness :
    UsageInv (updateUsageLog
      (ChatbotUsageLog.empty.addUsage "m" 1 2 3 4 5)
      (some (ChatbotUsageLog.createErrorLog "e"))) :=
  (usage_totals_invariant.2.2.2.1
    (ChatbotUsageLog.empty.addUsage "m" 1 2 3 4 5)
    (ChatbotUsageLog.createErrorLog "e")
    (usage_totals_invariant.2.1 ChatbotUsageLog.empty "m" 1 2 3 4 5
      usage_totals_invariant.1)).1

/-! ### Synthesis-failure behaviour -/

/-- Merging an error log into a usage log is the identity: `create_error_log`
produces no `model_usages` entries, and `_update_usage_log` copies only
`model_usages` (never `status`, `log_type` or `message`). -/
theorem updateUsageLog_errorLog_noop (t : ChatbotUsageLog) (msg : String) :
    updateUsageLog t (some (ChatbotUsageLog.createErrorLog msg)) = t := rfl

/-- The backend usage log returned by the document collaborator in the C7
failing input. -/
def c7BackendUsage : ChatbotUsageLog :=
  ChatbotUsageLog.empty.addUsage "backend-model" 10 5 15 0 100

/-- The document collaborator of the C7 failing input. -/
def c7DocBackend : String → Int → String × ChatbotUsageLog :=
  fun _ _ => ("doc text", c7BackendUsage)

/-- C7 failing input evaluated: when the synthesis call fails, the executor
returns the raw combined text unchanged as the final answer (first half of
the claim, true), but the returned usage log is exactly the pre-synthesis
combined log — status still `SUCCESS`, no message, and only the one backend
entry; the attempted merge of `create_error_log` records nothing (second
half of the claim, false in the code). -/
theorem synth_failure_keeps_raw_logs_nothing :
    executeAnswerSources ["document"] "q" (some 1) stubBackend c7DocBackend []
        (.error "boom") =
      .ok ("doc text", "doc text",
        updateUsageLog ChatbotUsageLog.empty (some c7BackendUsage),
        ["document"], ⟨none, none⟩) ∧
    (updateUsageLog ChatbotUsageLog.empty (some c7BackendUsage)).status =
      Status.SUCCESS ∧
    (updateUsageLog ChatbotUsageLog.empty (some c7BackendUsage)).message = none ∧
    (updateUsageLog ChatbotUsageLog.empty
      (some c7BackendUsage)).model_usages.length = 1 ∧
    (∀ (t : ChatbotUsageLog) (msg : String),
      updateUsageLog t (some (ChatbotUsageLog.createErrorLog msg)) = t) :=
  ⟨rfl, rfl, rfl, rfl, fun _ _ => rfl⟩

/-! ### Lemmas about the merge step's string handling -/

/-- `String.append` acts as list append on the underlying characters. -/
theorem strData_append (s t : String) : (s ++ t).data = s.data ++ t.data := rfl

/-- `pyStrip` acts as `stripChars` on the underlying characters. -/
theorem pyStrip_data (s : String) : (pyStrip s).data = stripChars s.data := rfl

/-- If `dropWhile` produces a cons, its head fails the predicate. -/
theorem dropWhile_eq_cons_head_false (p : Char → Bool) :
    ∀ (l : List Char) (a : Char) (t : List Char),
      l.dropWhile p = a :: t → p a = false := by
  intro l
  induction l with
  | nil => intro a t h; simp [List.dropWhile] at h
  | cons b rest ih =>
    intro a t h
    rw [List.dropWhile_cons] at h
    by_cases hb : p b = true
    · rw [if_pos hb] at h
      exact ih a t h
    · rw [if_neg hb] at h
      cases h
      simpa using hb

/-- Stripping fixes a character list that starts and ends with non-whitespace
characters. -/
theorem stripChars_cons_append (a c : Char) (m : List Char)
    (ha : a.isWhitespace = false) (hc : c.isWhitespace = false) :
    stripChars (a :: (m ++ [c])) = a :: (m ++ [c]) := by
  unfold stripChars stripLeftChars
  rw [List.dropWhile_cons_of_neg (by simp [ha])]
  rw [show (a :: (m ++ [c])).reverse = c :: (m.reverse ++ [a]) by simp]
  rw [List.dropWhile_cons_of_neg (by simp [hc])]
  simp

/-- A non-empty stripped character list ends in a non-whitespace
character. -/
theorem stripChars_ends_nonws (l : List Char) (h : stripChars l ≠ []) :
    ∃ m c, stripChars l = m ++ [c] ∧ c.isWhitespace = false := by
  unfold stripChars at h ⊢
  cases hY : (stripLeftChars l).reverse.dropWhile Char.isWhitespace with
  | nil => rw [hY] at h; simp at h
  | cons c rest =>
    refine ⟨rest.reverse, c, ?_, dropWhile_eq_cons_head_false _ _ _ _ hY⟩
    simp

/-- A string whose characters start and end in non-whitespace is fixed by
`pyStrip`. -/
theorem pyStrip_eq_self_of_data (s : String) (a : Char) (mid : List Char)
    (c : Char) (hd : s.data = a :: (mid ++ [c]))
    (ha : a.isWhitespace = false) (hc : c.isWhitespace = false) :
    pyStrip s = s := by
  apply String.ext
  rw [pyStrip_data, hd]
  exact stripChars_cons_append a c mid ha hc

/-- The stripped text of a source whose stripped text is non-empty
decomposes as a list ending in a non-whitespace character. -/
theorem pyStrip_decomp (s : String) (h : pyStrip s ≠ "") :
    ∃ m c, (pyStrip s).data = m ++ [c] ∧ c.isWhitespace = false := by
  have h' : stripChars s.data ≠ [] := by
    intro hnil
    apply h
    apply String.ext
    rw [pyStrip_data, hnil]
  simpa [pyStrip_data] using stripChars_ends_nonws s.data h'

/-- Two-section merge in database-then-document priority order. -/
theorem merge_two_db_doc (c1 c2 : String) (h2 : pyStrip c2 ≠ "") :
    mergeSections [("database", c1), ("document", c2)] =
      "Database Result:\n" ++ pyStrip c1 ++ "\n\n" ++
        ("Document Result:\n" ++ pyStrip c2) := by
  obtain ⟨m, cc, hm, hcc⟩ := pyStrip_decomp c2 h2
  have hmerge : mergeSections [("database", c1), ("document", c2)] =
      pyStrip ("Database Result:\n" ++ pyStrip c1 ++ "\n\n" ++
        ("Document Result:\n" ++ pyStrip c2)) := rfl
  rw [hmerge]
  apply pyStrip_eq_self_of_data _ 'D'
    ("atabase Result:\n".data ++ (stripChars c1.data ++ ("\n\n".data ++
      ("Document Result:\n".data ++ m)))) cc ?_ (by decide) hcc
  simp only [strData_append, pyStrip_data] at hm ⊢
  rw [hm]
  simp [List.append_assoc]

/-- Two-section merge in document-then-database priority order: the output
order follows the given priority list, not the backend identity. -/
theorem merge_two_doc_db (c1 c2 : String) (h2 : pyStrip c2 ≠ "") :
    mergeSections [("document", c1), ("database", c2)] =
      "Document Result:\n" ++ pyStrip c1 ++ "\n\n" ++
        ("Database Result:\n" ++ pyStrip c2) := by
  obtain ⟨m, cc, hm, hcc⟩ := pyStrip_decomp c2 h2
  have hmerge : mergeSections [("document", c1), ("database", c2)] =
      pyStrip ("Document Result:\n" ++ pyStrip c1 ++ "\n\n" ++
        ("Database Result:\n" ++ pyStrip c2)) := rfl
  rw [hmerge]
  apply pyStrip_eq_self_of_data _ 'D'
    ("ocument Result:\n".data ++ (stripChars c1.data ++ ("\n\n".data ++
      ("Database Result:\n".data ++ m)))) cc ?_ (by decide) hcc
  simp only [strData_append, pyStrip_data] at hm ⊢
  rw [hm]
  simp [List.append_assoc]

/-- C8: in the executor's merge step (fed with the `(source, content)` pairs
in the deduplicated, capped source-priority order — `asyncio.gather`
preserves submission order, so completion order is irrelevant), a single
active source yields its (whitespace-trimmed) text verbatim with no label,
while two active sources with non-empty trimmed text yield one labeled
section per source in priority order, separated by a blank line. -/
theorem merge_step_sections :
    (∀ (n c : String), mergeSections [(n, c)] = pyStrip c) ∧
    (∀ c1 c2 : String, pyStrip c1 ≠ "" → pyStrip c2 ≠ "" →
      mergeSections [("database", c1), ("document", c2)] =
        "Database Result:\n" ++ pyStrip c1 ++ "\n\n" ++
          ("Document Result:\n" ++ pyStrip c2)) ∧
    (∀ c1 c2 : String, pyStrip c1 ≠ "" → pyStrip c2 ≠ "" →
      mergeSections [("document", c1), ("database", c2)] =
        "Document Result:\n" ++ pyStrip c1 ++ "\n\n" ++
          ("Database Result:\n" ++ pyStrip c2)) :=
  ⟨fun _ _ => rfl,
   fun c1 c2 _ h2 => merge_two_db_doc c1 c2 h2,
   fun c1 c2 _ h2 => merge_two_doc_db c1 c2 h2⟩

/-- Witness for C8 at concrete one- and two-source merges. -/
theorem merge_step_sections_witness :
    mergeSections [("document", " x ")] = pyStrip " x " ∧
    mergeSections [("database", "A"), ("document", "B")] =
      "Database Result:\n" ++ pyStrip "A" ++ "\n\n" ++
        ("Document Result:\n" ++ pyStrip "B") :=
  ⟨merge_step_sections.1 "document" " x ",
   merge_step_sections.2.1 "A" "B" (by decide) (by decide)⟩

/-! ### Support-wrapper behaviour on an empty casual reply -/

/-- The C9 scenario routing outcome: support mode will be used, the parsed
decision is `["casual"]`, and the model-provided immediate (casual) answer is
the empty string. -/
def emptyCasualRouting : RoutingOutcome :=
  .parsed ChatbotUsageLog.empty ⟨["casual"], "hello", some ""⟩

/-- C9 counterexample: in support mode with decision `["casual"]` and an
empty model-provided immediate answer, `handle_support_chat` does **not**
return the canned escalation response — the empty casual reply is replaced by
the fixed apology inside `plan_answer_route`, so the wrapper sees a non-empty
answer and wraps it with confidence `0.7`, no human-support flag and intent
`"general"`. -/
theorem support_empty_casual_no_escalation :
    (handleSupportChat "hello" (some 1) emptyCasualRouting stubBackend
      stubBackend [] stubSynth).response = apologyText ∧
    (handleSupportChat "hello" (some 1) emptyCasualRouting stubBackend
      stubBackend [] stubSynth).confidence = 7 / 10 ∧
    (handleSupportChat "hello" (some 1) emptyCasualRouting stubBackend
      stubBackend [] stubSynth).needsHumanSupport = false ∧
    (handleSupportChat "hello" (some 1) emptyCasualRouting stubBackend
      stubBackend [] stubSynth).intent = "general" ∧
    (7 / 10 : ℚ) ≠ 0 ∧
    handleSupportChat "hello" (some 1) emptyCasualRouting stubBackend
      stubBackend [] stubSynth ≠ buildSupportErrorResponse := by
  refine ⟨rfl, rfl, rfl, rfl, by norm_num, ?_⟩
  intro h
  have hcongr := congrArg SupportChatResponse.needsHumanSupport h
  have hn : (handleSupportChat "hello" (some 1) emptyCasualRouting stubBackend
      stubBackend [] stubSynth).needsHumanSupport = false := rfl
  rw [hn] at hcongr
  simp [buildSupportErrorResponse] at hcongr

/-- C9 as amended: in support mode with parsed decision `["casual"]` and an
empty model-provided immediate answer, the empty casual reply is replaced by
the fixed apology string, so `handle_support_chat` returns the apology as a
normal response with confidence `0.7`, `needsHumanSupport = false`, intent
`"general"` and no suggestions; the canned escalation is not triggered. -/
theorem support_empty_casual_returns_apology (message : String)
    (aid : Option Int) (usage : ChatbotUsageLog) (iq : String)
    (db doc : String → Int → String × ChatbotUsageLog)
    (tm : List SqlTemplate) (sy : Except String (String × ChatbotUsageLog)) :
    handleSupportChat message aid
        (.parsed usage ⟨["casual"], iq, some ""⟩) db doc tm sy =
      ⟨apologyText, 7 / 10, false, "general", []⟩ := rfl
